import Mathlib

/-!
# Verification of the blendergltf export operator shell

This file gives a shallow embedding, in Lean 4, of the glTF export operator
(`ExportGLTF` in `__init__.py` of the blendergltf add-on) and proves
properties of it.

Embedding conventions:
* Python strings are embedded as `List Char` (`PyStr`); exact Unicode
  code-point comparison, as in CPython.
* The only Python floats that the embedded code manipulates are exact small
  values (0, 1, axis-conversion matrix entries, default parameter values),
  embedded as `ℚ`.
* Python dicts whose keys matter are embedded as association lists with
  first-match lookup and update-or-append insertion (CPython dicts have
  unique keys; insertion of a fresh key appends, insertion of an existing
  key overwrites in place).
* Python exceptions (`KeyError` from the default-value table) are embedded
  as `Option`: `none` means the export aborts with an uncaught exception
  and nothing further is executed (in particular, no file is written).
* Code of this repository that is not under `src/` (the conversion engine
  `blendergltf.py` and the `filters` module) is either universally
  quantified over, or modelled from the spec; each such place is marked.
-/

namespace Blendergltf

/-- A Python string. -/
abbrev PyStr := List Char

/-! ## Python string comparison

CPython compares strings lexicographically by Unicode code point; this is
the order used by `sorted()` and by `self.filepath.endswith(...)` slicing
below. -/

/-- Python `a <= b` on strings: lexicographic by code point. -/
def str_le : PyStr → PyStr → Bool
  | [], _ => true
  | _ :: _, [] => false
  | a :: as, b :: bs => if a < b then true else if b < a then false else str_le as bs

/-- The relation form of `str_le`. -/
def StrLe (a b : PyStr) : Prop := str_le a b = true

instance : DecidableRel StrLe := fun _ _ => decEq _ _

instance : IsTotal PyStr StrLe where
  total a b := by
    induction a generalizing b with
    | nil => left; rfl
    | cons x xs ih =>
      cases b with
      | nil => right; rfl
      | cons y ys =>
        rcases lt_trichotomy x y with h | h | h
        · left; simp [StrLe, str_le, h]
        · subst h
          rcases ih ys with h2 | h2
          · left; simpa [StrLe, str_le] using h2
          · right; simpa [StrLe, str_le] using h2
        · right; simp [StrLe, str_le, h, lt_asymm h]

instance : IsTrans PyStr StrLe where
  trans a b c hab hbc := by
    induction a generalizing b c with
    | nil => rfl
    | cons x xs ih =>
      cases b with
      | nil => simp [StrLe, str_le] at hab
      | cons y ys =>
        cases c with
        | nil => simp [StrLe, str_le] at hbc
        | cons z zs =>
          simp only [StrLe, str_le] at hab hbc ⊢
          rcases lt_trichotomy x y with hxy | hxy | hxy
          · rcases lt_trichotomy y z with hyz | hyz | hyz
            · simp [lt_trans hxy hyz]
            · subst hyz; simp [hxy]
            · simp [hyz, lt_asymm hyz] at hbc
          · subst hxy
            rcases lt_trichotomy x z with hxz | hxz | hxz
            · simp [hxz]
            · subst hxz
              simp only [lt_irrefl, if_false] at hab hbc ⊢
              exact ih _ _ hab hbc
            · simp [hxz, lt_asymm hxz] at hbc
          · simp [hxy, lt_asymm hxy] at hab

/-- Python's `sorted(...)` (ascending, stable comparison sort by `<=`),
embedded as insertion sort over the code-point order. -/
def py_sorted (l : List PyStr) : List PyStr := List.insertionSort StrLe l

/-! ## `ExportGLTF.check`: file-extension rewriting and flag normalization -/

/-- Python `s.endswith(t)` on strings embedded as `List Char`. -/
def endswith (s suffix : PyStr) : Bool := decide (suffix <:+ s)

/-- Python `s[:-n]` (for `n ≥ 1`): all characters but the last `n`; the
empty string when `len(s) ≤ n`. -/
def py_slice_drop_last (s : PyStr) (n : Nat) : PyStr :=
  s.take (s.length - n)

/-- The file-path rewriting step of `ExportGLTF.check`:

```python
if self.gltf_export_binary and self.filepath.endswith('.gltf'):
    self.filepath = self.filepath[:-4] + 'glb'
elif not self.gltf_export_binary and self.filepath.endswith('.glb'):
    self.filepath = self.filepath[:-3] + 'gltf'
```
-/
def check_filepath (gltf_export_binary : Bool) (filepath : PyStr) : PyStr :=
  if gltf_export_binary && endswith filepath ".gltf".data then
    py_slice_drop_last filepath 4 ++ "glb".data
  else if !gltf_export_binary && endswith filepath ".glb".data then
    py_slice_drop_last filepath 3 ++ "gltf".data
  else
    filepath

/-- The buffer-flag normalization step of `ExportGLTF.check`:

```python
if self.gltf_export_binary and self.buffers_embed_data and not self.buffers_combine_data:
    self.buffers_combine_data = True
```
returns the new value of `buffers_combine_data`. -/
def check_buffers_combine (gltf_export_binary buffers_embed_data
    buffers_combine_data : Bool) : Bool :=
  if gltf_export_binary && buffers_embed_data && !buffers_combine_data then
    true
  else
    buffers_combine_data

/-! ## The glTF document, as manipulated by `ExportGLTF.execute`

`execute` post-processes the document returned by the conversion engine:
it only ever touches the `nodes` / `scenes` / `scene` / `techniques`
entries, so only those are modelled; every other top-level entry rides
along unchanged inside the opaque remainder of the engine's output and is
irrelevant to the theorems below.  A node dict created by `execute` has
exactly the keys `children` and `matrix`; engine-created nodes are
embedded with `matrix := none` or arbitrary values (their other keys are
not consulted by `execute`). -/

/-- A node record: the keys of a node dict that `execute` reads or writes. -/
structure GltfNode where
  children : List PyStr
  matrix : Option (List ℚ)
deriving DecidableEq

/-- A scene record: `execute` only consults `scene['nodes']`. -/
structure GltfScene where
  nodes : List PyStr
deriving DecidableEq

/-- A technique-parameter value, as stored in `parameter['value']`:
a Python int, float, or tuple of floats. -/
inductive GLValue where
  | int (i : Int)
  | float (q : ℚ)
  | vec (l : List ℚ)
deriving DecidableEq

/-- A technique parameter: `parameter['type']` (a GL enum code) and
`parameter['value']`.  The outer `Option` is presence of the `'value'`
key; the inner `Option` distinguishes Python `None` (`none`) from a real
value (`some`). -/
structure TechParameter where
  type : Nat
  value : Option (Option GLValue)
deriving DecidableEq

/-- A technique record: `execute` only consults `technique['parameters']`. -/
structure Technique where
  parameters : List (PyStr × TechParameter)
deriving DecidableEq

/-- The glTF document under post-processing by `execute`. -/
structure Gltf where
  nodes : List (PyStr × GltfNode)
  scenes : List (PyStr × GltfScene)
  scene : Option PyStr
  techniques : List (PyStr × Technique)
deriving DecidableEq

/-- First-match lookup in a Python dict embedded as an association list. -/
def dict_lookup {β : Type} (k : PyStr) : List (PyStr × β) → Option β
  | [] => none
  | (k', v) :: rest => if k' = k then some v else dict_lookup k rest

/-- Python dict insertion `d[k] = v`: overwrite in place if the key
exists, append otherwise. -/
def dict_insert {β : Type} (k : PyStr) (v : β) : List (PyStr × β) → List (PyStr × β)
  | [] => [(k, v)]
  | (k', v') :: rest => if k' = k then (k, v) :: rest else (k', v') :: dict_insert k v rest

/-! ## `ExportGLTF.execute`, lines 486–510: document post-processing -/

/-- The identity matrix `mathutils.Matrix.Identity(4)`. -/
def identity4 : Fin 4 → Fin 4 → ℚ := fun i j => if i = j then 1 else 0

/-- Row-major flattening of the 4×4 global matrix:
`chain.from_iterable([[v[0], v[1], v[2], v[3]] for v in M[:]])`
(then raveled to a 16-tuple; the `np.float32` round trip is exact on the
values produced by `axis_conversion`, which are 0 and ±1). -/
def flatten16 (m : Fin 4 → Fin 4 → ℚ) : List ℚ :=
  [m 0 0, m 0 1, m 0 2, m 0 3,
   m 1 0, m 1 1, m 1 2, m 1 3,
   m 2 0, m 2 1, m 2 2, m 2 3,
   m 3 0, m 3 1, m 3 2, m 3 3]

/-- The wrapper id `root_node_id = '%s_root' % scene_id`. -/
def root_node_id (scene_id : PyStr) : PyStr := scene_id ++ "_root".data

/-- The loop body of the root-transform step, acting on `gltf['nodes']`:
for each scene, `gltf['nodes'][root_node_id] = {'children': scene['nodes'],
'matrix': matrix}`. -/
def root_nodes_fold (matrix : List ℚ) (scenes : List (PyStr × GltfScene))
    (nodes : List (PyStr × GltfNode)) : List (PyStr × GltfNode) :=
  scenes.foldl
    (fun ns p => dict_insert (root_node_id p.1) ⟨p.2.nodes, some matrix⟩ ns) nodes

/-- Lines 486–502 of `execute`: when the configured global matrix is not
the identity, wrap every scene's roots in a synthetic root node holding
the flattened matrix and make that node the scene's sole root.

```python
if settings['nodes_global_matrix'] != mathutils.Matrix.Identity(4):
    matrix = tuple(_matrix.ravel())
    for scene_id, scene in gltf['scenes'].items():
        root_node = {'children': scene['nodes'], 'matrix': matrix}
        root_node_id = '%s_root' % scene_id
        gltf['nodes'][root_node_id] = root_node
        scene['nodes'] = [root_node_id]
```
-/
def execute_root_transform (m : Fin 4 → Fin 4 → ℚ) (g : Gltf) : Gltf :=
  if m = identity4 then g
  else
    { g with
      nodes := root_nodes_fold (flatten16 m) g.scenes g.nodes
      scenes := g.scenes.map (fun p => (p.1, { nodes := [root_node_id p.1] })) }

/-- Lines 504–505 of `execute`:

```python
if gltf['scenes']:
    gltf['scene'] = sorted(gltf['scenes'].keys())[0]
```
(`[0]` on the sorted non-empty key list is its head). -/
def execute_default_scene (g : Gltf) : Gltf :=
  if g.scenes.isEmpty then g
  else
    match (py_sorted (g.scenes.map Prod.fst)).head? with
    | some s => { g with scene := some s }
    | none => g

/-- The table `_DEFAULT_VALUES_BY_PARAM_TYPE` (lines 75–89): the hard-coded
per-GL-type default table; `none` for a key not in the dict (a lookup of
such a key raises `KeyError`). -/
def _DEFAULT_VALUES_BY_PARAM_TYPE : Nat → Option GLValue
  | 5124 => some (.int 1)                       -- GL_INT
  | 5126 => some (.float 1)                     -- GL_FLOAT
  | 35664 => some (.vec [1, 1])                 -- GL_FLOAT_VEC2
  | 35665 => some (.vec [1, 1, 1])              -- GL_FLOAT_VEC3
  | 35666 => some (.vec [1, 1, 1, 1])           -- GL_FLOAT_VEC4
  | 35674 => some (.vec [1, 0, 0, 1])           -- GL_FLOAT_MAT2
  | 35675 => some (.vec [1, 0, 0, 0, 1, 0, 0, 0, 1])  -- GL_FLOAT_MAT3
  | 35676 => some (.vec [1, 0, 0, 0,
                         0, 1, 0, 0,
                         0, 0, 1, 0,
                         0, 0, 0, 1])           -- GL_FLOAT_MAT4
  | _ => none

/-- The body of the default-filling loop (lines 509–510), per parameter:

```python
if 'value' in parameter and parameter['value'] is None:
    parameter['value'] = _DEFAULT_VALUES_BY_PARAM_TYPE[parameter['type']]
```
`none` embeds the uncaught `KeyError` on a type missing from the table. -/
def fill_parameter_value (p : TechParameter) : Option TechParameter :=
  match p.value with
  | some none =>
    match _DEFAULT_VALUES_BY_PARAM_TYPE p.type with
    | some d => some { p with value := some (some d) }
    | none => none
  | _ => some p

/-- The inner loop over `technique['parameters'].values()`. -/
def fill_parameters :
    List (PyStr × TechParameter) → Option (List (PyStr × TechParameter))
  | [] => some []
  | (k, p) :: rest =>
    match fill_parameter_value p with
    | none => none
    | some p' =>
      match fill_parameters rest with
      | none => none
      | some rest' => some ((k, p') :: rest')

/-- The outer loop over `gltf['techniques'].values()` (lines 507–510). -/
def fill_techniques :
    List (PyStr × Technique) → Option (List (PyStr × Technique))
  | [] => some []
  | (k, t) :: rest =>
    match fill_parameters t.parameters with
    | none => none
    | some ps =>
      match fill_techniques rest with
      | none => none
      | some rest' => some ((k, { parameters := ps }) :: rest')

/-- Lines 507–510 of `execute`: fill every present-but-`None` parameter
value with the table default. -/
def execute_fill_defaults (g : Gltf) : Option Gltf :=
  (fill_techniques g.techniques).map (fun ts => { g with techniques := ts })

/-! ## The perspective-camera converter (conversion engine)

The converter itself (`export_camera` in `blendergltf.py`) is not a file
of `src/`; only its test fixtures (`bpy_camera_default` /
`gltf_camera_default` in `src/tests/conftest.py`) are. -/

/-- The `perspective` record of a glTF camera; `aspect` embeds the JSON
field `aspectRatio`, absent (`none`) when it is omitted. -/
structure CameraPerspective where
  yfov : ℚ
  znear : ℚ
  zfar : ℚ
  aspect : Option ℚ
deriving DecidableEq

/-- Modelled from the spec: the perspective branch of the camera converter
(`export_camera` in `blendergltf.py`, which is not under `src/`).  Per the
spec, "perspective cameras emit yfov/aspectRatio/znear/zfar; … aspect
ratio is computed from the two field-of-view angles when both are
available, otherwise omitted": `yfov` is the camera's `angle_y`, `znear`
its `clip_start`, `zfar` its `clip_end`, and the aspect ratio is
`angle_x / angle_y` when `angle_x` is available.  The fixture pair
`bpy_camera_default` / `gltf_camera_default` in `src/tests/conftest.py`
agrees with this model. -/
def export_camera_perspective (angle_x : Option ℚ)
    (angle_y clip_start clip_end : ℚ) : CameraPerspective :=
  { yfov := angle_y
    znear := clip_start
    zfar := clip_end
    aspect := angle_x.map (fun ax => ax / angle_y) }

/-! ## `ExportGLTF.execute`, lines 427–463: input data filtering -/

/-- What `obj.data` is an instance of, for the three `isinstance` checks
of lines 440–454 (`bpy.types.Camera` / `Lamp` / `Mesh`); `nodata` is a
Python `None` data block, `other` any other data-block class. -/
inductive BpyDataKind where
  | camera
  | lamp
  | mesh
  | nodata
  | other
deriving DecidableEq

/-- A member of `bpy.data.objects`: an opaque handle plus the class of its
data block. -/
structure BpyObject where
  name : PyStr
  data : BpyDataKind
deriving DecidableEq

/-- The entity lists `execute` draws from `bpy.data` and passes to the
conversion engine (the `data` dict of lines 427–437).  Entity handles
other than objects are opaque and embedded as names. -/
structure BlendData where
  actions : List PyStr
  cameras : List PyStr
  lamps : List PyStr
  images : List PyStr
  materials : List PyStr
  meshes : List PyStr
  objects : List BpyObject
  scenes : List PyStr
  textures : List PyStr
deriving DecidableEq

/-- The operator properties `execute` consults, plus the settings derived
at the start of `execute`: `nodes_global_matrix` is the matrix computed by
`axis_conversion(...).to_4x4()` from `axis_forward` / `axis_up` (the
helper itself is external to the repository, so the matrix is taken as
given).  `gltf_output_dir`, `gltf_name` and the extension-exporter list
are not consulted by any embedded step and are elided. -/
structure Settings where
  nodes_export_hidden : Bool
  nodes_selected_only : Bool
  blocks_prune_unused : Bool
  buffers_embed_data : Bool
  buffers_combine_data : Bool
  gltf_export_binary : Bool
  pretty_print : Bool
  enable_actions : Bool
  enable_cameras : Bool
  enable_lamps : Bool
  enable_materials : Bool
  enable_meshes : Bool
  enable_textures : Bool
  filepath : PyStr
  nodes_global_matrix : Fin 4 → Fin 4 → ℚ
deriving DecidableEq

/-- Lines 427–437 of `execute`: build the `data` dict, emptying each
category whose enable flag is off:

```python
data = {
    'actions': list(bpy.data.actions) if self.enable_actions else [],
    ...
    'objects': list(bpy.data.objects),
    'scenes': list(bpy.data.scenes),
}
```
-/
def execute_filter_data (s : Settings) (bpy : BlendData) : BlendData :=
  { actions := if s.enable_actions then bpy.actions else []
    cameras := if s.enable_cameras then bpy.cameras else []
    lamps := if s.enable_lamps then bpy.lamps else []
    images := if s.enable_textures then bpy.images else []
    materials := if s.enable_materials then bpy.materials else []
    meshes := if s.enable_meshes then bpy.meshes else []
    objects := bpy.objects
    scenes := bpy.scenes
    textures := if s.enable_textures then bpy.textures else [] }

/-- Lines 440–454 of `execute`: drop objects pointing to disabled data,
one `isinstance` pass per disabled category:

```python
if not self.enable_cameras:
    data['objects'] = [obj for obj in data['objects']
                       if not isinstance(obj.data, bpy.types.Camera)]
```
and likewise for `Lamp` and `Mesh`. -/
def execute_filter_objects (s : Settings) (objects : List BpyObject) :
    List BpyObject :=
  let objects :=
    if !s.enable_cameras then
      objects.filter (fun o => decide (o.data ≠ BpyDataKind.camera))
    else objects
  let objects :=
    if !s.enable_lamps then
      objects.filter (fun o => decide (o.data ≠ BpyDataKind.lamp))
    else objects
  if !s.enable_meshes then
    objects.filter (fun o => decide (o.data ≠ BpyDataKind.mesh))
  else objects

/-- A data-reducing pass over the entity lists: the `visible_only`,
`selected_only` and `used_only` functions of the `filters` module (not
under `src/`) are filters — each may drop entities but adds none.  Only
the four lists the theorems below consult are constrained. -/
def IsEntityFilter (f : BlendData → BlendData) : Prop :=
  ∀ d : BlendData,
    (f d).objects ⊆ d.objects ∧ (f d).cameras ⊆ d.cameras ∧
    (f d).lamps ⊆ d.lamps ∧ (f d).meshes ⊆ d.meshes

/-- Lines 427–463 of `execute`: the data handed to the conversion engine
(`export_gltf(data, settings)`): category filtering, then the three
conditional filter passes

```python
if not settings['nodes_export_hidden']: data = visible_only(data)
if settings['nodes_selected_only']: data = selected_only(data)
if settings['blocks_prune_unused']: data = used_only(data)
```
with the filter functions passed in, since the `filters` module is not
under `src/`. -/
def execute_engine_input (s : Settings) (bpy : BlendData)
    (visible_only selected_only used_only : BlendData → BlendData) : BlendData :=
  let data := execute_filter_data s bpy
  let data := { data with objects := execute_filter_objects s data.objects }
  let data := if !s.nodes_export_hidden then visible_only data else data
  let data := if s.nodes_selected_only then selected_only data else data
  if s.blocks_prune_unused then used_only data else data

/-! ## `ExportGLTF.execute`, lines 484–531: assembly and file writing

The bytes written to each file are a deterministic pure function of the
fully assembled document and the flags (`json.dump(gltf, fout,
indent=indent, sort_keys=True, check_circular=False)` for the text file,
`'\n'.join('%s: %s' % (k, v) for k, v in gltf.items())` for the auxiliary
`.raw` dump, the engine's bytes for binary mode); each is embedded as a
content descriptor recording that function's arguments, so equality of
descriptors is byte-identity of file contents. -/

/-- What one `open(...)`/`write`/close (a `with open(...)` block) puts in
a file. -/
inductive FileContent where
  | glbBytes (gltf : Gltf)
  | rawText (gltf : Gltf)
  | jsonText (gltf : Gltf) (indent : Option Nat) (trailingNewline : Bool)
deriving DecidableEq

/-- One file written by `execute`: path, text-vs-binary open mode
(`'w'` vs `'wb'`), and the content. -/
structure FileWrite where
  path : PyStr
  write_binary : Bool
  content : FileContent
deriving DecidableEq

/-- What `execute` prints to the console: `print(matrix)` (line 496) and
the `'Export took ...'` timing line (line 512). -/
inductive LogEntry where
  | matrixPrint (m : List ℚ)
  | timing (seconds : ℚ)
deriving DecidableEq

/-- The tail of `ExportGLTF.execute`, from the construction of `data` (line 427) to
the file writes (lines 514–530): the filtered data goes to the conversion
engine (`export_gltf`, not under `src/`, passed in as `export_fn`), the
returned document is post-processed (root transform, default scene,
technique defaults), and the files are written last.  `t_start` / `t_end`
are the two `time.perf_counter()` readings; they flow only into the
timing print.  The result is the ordered list of file writes plus the
console log; `none` embeds an uncaught `KeyError` from the default-value
table, which aborts `execute` before any file is opened. -/
def execute (export_fn : BlendData → Settings → Gltf)
    (self : Settings) (bpy : BlendData)
    (visible_only selected_only used_only : BlendData → BlendData)
    (t_start t_end : ℚ) : Option (List FileWrite × List LogEntry) :=
  let data := execute_engine_input self bpy visible_only selected_only used_only
  let gltf0 := export_fn data self
  let g1 := execute_root_transform self.nodes_global_matrix gltf0
  let log1 : List LogEntry :=
    if self.nodes_global_matrix = identity4 then []
    else [.matrixPrint (flatten16 self.nodes_global_matrix)]
  let g2 := execute_default_scene g1
  (execute_fill_defaults g2).map (fun g3 =>
    (if self.gltf_export_binary then
      [⟨self.filepath, true, .glbBytes g3⟩]
    else
      [⟨self.filepath ++ ".raw".data, false, .rawText g3⟩,
       ⟨self.filepath, false,
         .jsonText g3 (if self.pretty_print then some 4 else none)
           self.pretty_print⟩],
     log1 ++ [.timing (t_end - t_start)]))

/-- The number of files an `execute` call opens and writes. -/
def write_count (r : Option (List FileWrite × List LogEntry)) : Option Nat :=
  r.map (fun x => x.1.length)

/-- The paths of the files an `execute` call opens and writes, in order. -/
def write_paths (r : Option (List FileWrite × List LogEntry)) :
    Option (List PyStr) :=
  r.map (fun x => x.1.map FileWrite.path)

/-! ## Concrete sample inputs, used to evaluate the theorems below -/

/-- A sample non-identity global matrix: the `axis_conversion` output for a
Z-up → Y-up change of basis. -/
def m_y_up : Fin 4 → Fin 4 → ℚ := fun i j =>
  if i = 0 ∧ j = 0 then 1
  else if i = 1 ∧ j = 2 then 1
  else if i = 2 ∧ j = 1 then -1
  else if i = 3 ∧ j = 3 then 1
  else 0

/-- A sample engine output: two scenes, one root node. -/
def gltf_ex : Gltf :=
  { nodes := [("Cube".data, { children := [], matrix := none })]
    scenes := [("Scene".data, { nodes := ["Cube".data] }),
               ("Alpha".data, { nodes := [] })]
    scene := none
    techniques := [] }

/-- The empty engine output. -/
def gltf_empty : Gltf := { nodes := [], scenes := [], scene := none, techniques := [] }

/-- A sample engine output with one technique: an unset 4×4-matrix
parameter, an unset float parameter, and a float parameter with a value. -/
def gltf_tech : Gltf :=
  { nodes := [], scenes := [], scene := none
    techniques := [("technique0".data,
      { parameters :=
          [("modelViewMatrix".data, { type := 35676, value := some none }),
           ("shininess".data, { type := 5126, value := some none }),
           ("opacity".data, { type := 5126, value := some (some (GLValue.float 2)) })] })] }

/-- The document `gltf_tech` after default filling. -/
def gltf_tech_filled : Gltf :=
  { nodes := [], scenes := [], scene := none
    techniques := [("technique0".data,
      { parameters :=
          [("modelViewMatrix".data,
            { type := 35676
              value := some (some (GLValue.vec
                [1, 0, 0, 0, 0, 1, 0, 0, 0, 0, 1, 0, 0, 0, 0, 1])) }),
           ("shininess".data, { type := 5126, value := some (some (GLValue.float 1)) }),
           ("opacity".data, { type := 5126, value := some (some (GLValue.float 2)) })] })] }

/-- Sample operator settings: the add-on's defaults (text mode,
pretty-printed, everything enabled, combine on), identity global matrix,
path `scene.gltf`. -/
def settings_text : Settings :=
  { nodes_export_hidden := false
    nodes_selected_only := false
    blocks_prune_unused := true
    buffers_embed_data := false
    buffers_combine_data := true
    gltf_export_binary := false
    pretty_print := true
    enable_actions := true
    enable_cameras := true
    enable_lamps := true
    enable_materials := true
    enable_meshes := true
    enable_textures := true
    filepath := "scene.gltf".data
    nodes_global_matrix := identity4 }

/-- The settings `settings_text` with cameras, lamps and meshes disabled. -/
def settings_nocam : Settings :=
  { settings_text with
    enable_cameras := false
    enable_lamps := false
    enable_meshes := false }

/-- An empty `bpy.data`. -/
def bpy_empty : BlendData :=
  { actions := [], cameras := [], lamps := [], images := [], materials := []
    meshes := [], objects := [], scenes := [], textures := [] }

/-- A sample `bpy.data`: a camera, a mesh and an empty object. -/
def bpy_sample : BlendData :=
  { actions := []
    cameras := ["Camera".data]
    lamps := ["Lamp".data]
    images := []
    materials := []
    meshes := ["CubeMesh".data]
    objects := [⟨"Cam".data, BpyDataKind.camera⟩,
                ⟨"Cube".data, BpyDataKind.mesh⟩,
                ⟨"Empty".data, BpyDataKind.nodata⟩]
    scenes := ["Scene".data]
    textures := [] }

/-! ## Helper lemmas: Python string operations -/

theorem str_le_refl (a : PyStr) : str_le a a = true := by
  induction a with
  | nil => rfl
  | cons x xs ih => simp [str_le, ih]

theorem endswith_append (p t : PyStr) : endswith (p ++ t) t = true := by
  simp [endswith, List.suffix_append]

theorem endswith_exists {s t : PyStr} (h : endswith s t = true) :
    ∃ p, s = p ++ t := by
  obtain ⟨p, hp⟩ := of_decide_eq_true h
  exact ⟨p, hp.symm⟩

theorem py_slice_drop_last_append (p t : PyStr) (n : Nat) (h : t.length = n) :
    py_slice_drop_last (p ++ t) n = p := by
  unfold py_slice_drop_last
  rw [List.length_append, h, Nat.add_sub_cancel]
  exact List.take_left p t

theorem check_filepath_gltf (p : PyStr) :
    check_filepath true (p ++ ".gltf".data) = p ++ ".glb".data := by
  have hdrop : py_slice_drop_last (p ++ ".gltf".data) 4 = p ++ ".".data := by
    have hsplit : p ++ ".gltf".data = (p ++ ".".data) ++ "gltf".data := by
      rw [List.append_assoc]; rfl
    rw [hsplit]
    exact py_slice_drop_last_append _ _ 4 (by rfl)
  simp [check_filepath, endswith_append, hdrop, List.append_assoc]

theorem check_filepath_glb (p : PyStr) :
    check_filepath false (p ++ ".glb".data) = p ++ ".gltf".data := by
  have hdrop : py_slice_drop_last (p ++ ".glb".data) 3 = p ++ ".".data := by
    have hsplit : p ++ ".glb".data = (p ++ ".".data) ++ "glb".data := by
      rw [List.append_assoc]; rfl
    rw [hsplit]
    exact py_slice_drop_last_append _ _ 3 (by rfl)
  simp [check_filepath, endswith_append, hdrop, List.append_assoc]

theorem check_filepath_frame (b : Bool) (fp : PyStr)
    (h1 : ¬(b = true ∧ endswith fp ".gltf".data = true))
    (h2 : ¬(b = false ∧ endswith fp ".glb".data = true)) :
    check_filepath b fp = fp := by
  cases b with
  | false =>
    cases hg : endswith fp ".glb".data with
    | false => simp [check_filepath, hg]
    | true => exact absurd ⟨rfl, hg⟩ h2
  | true =>
    cases hg : endswith fp ".gltf".data with
    | false => simp [check_filepath, hg]
    | true => exact absurd ⟨rfl, hg⟩ h1

/-! ## C2: mode toggle rewrites the extension, never appends -/

/-- C2.  Toggling the binary-mode flag after an output path was chosen
rewrites the path's extension rather than appending a second one: with
binary mode true a path ending in `.gltf` is rewritten to the same path
ending in `.glb`, and with binary mode false a path ending in `.glb` is
rewritten to the same path ending in `.gltf`. -/
theorem extension_rewrite_spec (p : PyStr) :
    check_filepath true (p ++ ".gltf".data) = p ++ ".glb".data ∧
    check_filepath false (p ++ ".glb".data) = p ++ ".gltf".data :=
  ⟨check_filepath_gltf p, check_filepath_glb p⟩

/-- C2, evaluated: `model.gltf` becomes `model.glb` in binary mode, and
`model.glb` becomes `model.gltf` in text mode. -/
theorem extension_rewrite_check :
    check_filepath true ("model".data ++ ".gltf".data) = "model".data ++ ".glb".data ∧
    check_filepath false ("model".data ++ ".glb".data) = "model".data ++ ".gltf".data :=
  extension_rewrite_spec "model".data

/-! ## C10: the rewrite step touches no other path -/

/-- C10.  The extension-rewrite step changes the chosen file path exactly
when the path ends in `.gltf` with binary mode on, or ends in `.glb` with
binary mode off; every other path is left unchanged. -/
theorem extension_rewrite_frame_spec (b : Bool) (fp : PyStr) :
    check_filepath b fp ≠ fp ↔
      (b = true ∧ endswith fp ".gltf".data = true) ∨
      (b = false ∧ endswith fp ".glb".data = true) := by
  constructor
  · intro hne
    by_cases h1 : b = true ∧ endswith fp ".gltf".data = true
    · exact Or.inl h1
    · by_cases h2 : b = false ∧ endswith fp ".glb".data = true
      · exact Or.inr h2
      · exact absurd (check_filepath_frame b fp h1 h2) hne
  · rintro (⟨rfl, hg⟩ | ⟨rfl, hg⟩)
    · obtain ⟨p, rfl⟩ := endswith_exists hg
      rw [check_filepath_gltf]
      intro h
      have := congrArg List.length h
      simp [List.length_append] at this
    · obtain ⟨p, rfl⟩ := endswith_exists hg
      rw [check_filepath_glb]
      intro h
      have := congrArg List.length h
      simp [List.length_append] at this

/-- C10, evaluated: a path with a foreign extension is untouched in both
modes, and a matching path is indeed changed. -/
theorem extension_rewrite_frame_check :
    check_filepath true "model.txt".data = "model.txt".data ∧
    check_filepath false "model.glb".data ≠ "model.glb".data :=
  ⟨not_not.mp (fun hne => by
      have h := (extension_rewrite_frame_spec true "model.txt".data).mp hne
      revert h; decide),
   (extension_rewrite_frame_spec false "model.glb".data).mpr
     (Or.inr ⟨rfl, by decide⟩)⟩

/-! ## C3: flag-conflict normalization -/

/-- C3.  When binary export is requested together with embedded-but-not-
combined buffers, normalization forces the combine-buffers flag to true
(no error is raised: the step is total); in every other combination of
the three flags the combine-buffers flag is left unchanged. -/
theorem combine_flag_normalization_spec (b e c : Bool) :
    check_buffers_combine true true false = true ∧
    (¬(b = true ∧ e = true ∧ c = false) → check_buffers_combine b e c = c) := by
  constructor
  · rfl
  · intro h
    cases b <;> cases e <;> cases c <;> simp_all [check_buffers_combine]

/-- C3, evaluated: the conflicting combination is forced, a
non-conflicting one is untouched. -/
theorem combine_flag_normalization_check :
    check_buffers_combine true true false = true ∧
    check_buffers_combine false true false = false :=
  ⟨(combine_flag_normalization_spec false true false).1,
   (combine_flag_normalization_spec false true false).2 (by decide)⟩

/-! ## Helper lemmas: dict insertion and the root-node fold -/

theorem dict_lookup_insert_self {β : Type} (k : PyStr) (v : β)
    (l : List (PyStr × β)) : dict_lookup k (dict_insert k v l) = some v := by
  induction l with
  | nil => simp [dict_insert, dict_lookup]
  | cons a rest ih =>
    obtain ⟨k', v'⟩ := a
    by_cases h : k' = k <;> simp [dict_insert, dict_lookup, h, ih]

theorem dict_lookup_insert_ne {β : Type} (k1 k2 : PyStr) (v : β)
    (l : List (PyStr × β)) (h : k1 ≠ k2) :
    dict_lookup k1 (dict_insert k2 v l) = dict_lookup k1 l := by
  induction l with
  | nil =>
    simp only [dict_insert, dict_lookup]
    rw [if_neg (Ne.symm h)]
  | cons a rest ih =>
    obtain ⟨k', v'⟩ := a
    simp only [dict_insert]
    by_cases hk : k' = k2
    · subst hk
      rw [if_pos rfl]
      simp only [dict_lookup]
      rw [if_neg (Ne.symm h), if_neg (Ne.symm h)]
    · rw [if_neg hk]
      simp only [dict_lookup]
      by_cases hk1 : k' = k1
      · rw [if_pos hk1, if_pos hk1]
      · rw [if_neg hk1, if_neg hk1]
        exact ih

theorem root_node_id_inj {a b : PyStr} (h : root_node_id a = root_node_id b) :
    a = b :=
  List.append_cancel_right h

theorem root_nodes_fold_cons (matrix : List ℚ) (a : PyStr × GltfScene)
    (rest : List (PyStr × GltfScene)) (nodes : List (PyStr × GltfNode)) :
    root_nodes_fold matrix (a :: rest) nodes =
      root_nodes_fold matrix rest
        (dict_insert (root_node_id a.1) ⟨a.2.nodes, some matrix⟩ nodes) := by
  simp [root_nodes_fold]

theorem dict_lookup_root_fold_not_mem (matrix : List ℚ) (k : PyStr)
    (scenes : List (PyStr × GltfScene)) (nodes : List (PyStr × GltfNode))
    (h : ∀ p ∈ scenes, k ≠ root_node_id p.1) :
    dict_lookup k (root_nodes_fold matrix scenes nodes) = dict_lookup k nodes := by
  induction scenes generalizing nodes with
  | nil => rfl
  | cons a rest ih =>
    rw [root_nodes_fold_cons]
    rw [ih _ (fun p hp => h p (List.mem_cons_of_mem a hp))]
    exact dict_lookup_insert_ne _ _ _ _ (h a (List.mem_cons_self a rest))

theorem dict_lookup_root_fold_mem (matrix : List ℚ)
    (scenes : List (PyStr × GltfScene)) (nodes : List (PyStr × GltfNode))
    (sid : PyStr) (sc : GltfScene)
    (hnd : (scenes.map Prod.fst).Nodup) (hmem : (sid, sc) ∈ scenes) :
    dict_lookup (root_node_id sid) (root_nodes_fold matrix scenes nodes)
      = some ⟨sc.nodes, some matrix⟩ := by
  induction scenes generalizing nodes with
  | nil => cases hmem
  | cons a rest ih =>
    rw [root_nodes_fold_cons]
    rw [List.map_cons] at hnd
    have hnd' := List.nodup_cons.mp hnd
    rcases List.mem_cons.mp hmem with heq | hmem'
    · subst heq
      rw [dict_lookup_root_fold_not_mem]
      · exact dict_lookup_insert_self _ _ _
      · intro p hp he
        apply hnd'.1
        have hps : (sid, sc).1 = p.1 := root_node_id_inj he
        rw [hps]
        exact List.mem_map_of_mem Prod.fst hp
    · exact ih _ hnd'.2 hmem'

theorem dict_lookup_map_key {β : Type} (f : PyStr → β)
    (l : List (PyStr × GltfScene)) (sid : PyStr) (sc : GltfScene)
    (h : (sid, sc) ∈ l) :
    dict_lookup sid (l.map (fun p => (p.1, f p.1))) = some (f sid) := by
  induction l with
  | nil => cases h
  | cons a rest ih =>
    rcases List.mem_cons.mp h with heq | hmem
    · subst heq
      simp [dict_lookup]
    · simp only [List.map_cons, dict_lookup]
      by_cases hk : a.1 = sid
      · rw [if_pos hk, hk]
      · rw [if_neg hk]
        exact ih hmem

/-! ## C1: the synthetic wrapper root node -/

/-- C1.  If the configured global root-transform matrix is the 4×4
identity, the document is left untouched (no synthetic wrapper node).  If
it is not the identity, then every scene is rewritten so that its node
list is exactly the singleton wrapper id `scene_id + '_root'`, and the
node dict maps that wrapper id to a node whose children are the scene's
former root nodes and whose matrix is the flattened global matrix.
(Scene dict keys are distinct, being dict keys: hypothesis `hnd`.) -/
theorem root_transform_wrapper_spec (m : Fin 4 → Fin 4 → ℚ) (g : Gltf)
    (hnd : (g.scenes.map Prod.fst).Nodup) :
    (m = identity4 → execute_root_transform m g = g) ∧
    (m ≠ identity4 →
      (execute_root_transform m g).scenes
        = g.scenes.map (fun p => (p.1, { nodes := [root_node_id p.1] })) ∧
      ∀ sid sc, (sid, sc) ∈ g.scenes →
        dict_lookup (root_node_id sid) (execute_root_transform m g).nodes
          = some { children := sc.nodes, matrix := some (flatten16 m) } ∧
        dict_lookup sid (execute_root_transform m g).scenes
          = some { nodes := [root_node_id sid] }) := by
  constructor
  · intro hid
    unfold execute_root_transform
    rw [if_pos hid]
  · intro hne
    have hunfold : execute_root_transform m g =
        { g with
          nodes := root_nodes_fold (flatten16 m) g.scenes g.nodes
          scenes := g.scenes.map (fun p => (p.1, { nodes := [root_node_id p.1] })) } := by
      unfold execute_root_transform
      rw [if_neg hne]
    refine ⟨by rw [hunfold], ?_⟩
    intro sid sc hmem
    constructor
    · rw [hunfold]
      exact dict_lookup_root_fold_mem _ _ _ _ _ hnd hmem
    · rw [hunfold]
      exact dict_lookup_map_key
        (fun k => ({ nodes := [root_node_id k] } : GltfScene)) g.scenes sid sc hmem

/-- C1, evaluated on `gltf_ex` with a Y-up conversion matrix: the wrapper
for scene `Scene` holds the former root `Cube` and the flattened matrix,
both scenes' node lists become their singleton wrapper id, and the
identity matrix leaves the document unchanged. -/
theorem root_transform_wrapper_check :
    execute_root_transform identity4 gltf_ex = gltf_ex ∧
    dict_lookup (root_node_id "Scene".data) (execute_root_transform m_y_up gltf_ex).nodes
      = some { children := ["Cube".data], matrix := some (flatten16 m_y_up) } ∧
    (execute_root_transform m_y_up gltf_ex).scenes
      = [("Scene".data, { nodes := [root_node_id "Scene".data] }),
         ("Alpha".data, { nodes := [root_node_id "Alpha".data] })] := by
  refine ⟨(root_transform_wrapper_spec identity4 gltf_ex (by decide)).1 rfl, ?_, ?_⟩
  · exact (((root_transform_wrapper_spec m_y_up gltf_ex (by decide)).2 (by decide)).2
      "Scene".data { nodes := ["Cube".data] } (by decide)).1
  · exact ((root_transform_wrapper_spec m_y_up gltf_ex (by decide)).2 (by decide)).1.trans
      (by decide)

/-! ## Helper lemmas: the sorted default scene -/

theorem py_sorted_perm (l : List PyStr) : List.Perm (py_sorted l) l :=
  List.perm_insertionSort StrLe l

theorem py_sorted_sorted (l : List PyStr) : List.Sorted StrLe (py_sorted l) :=
  List.sorted_insertionSort StrLe l

/-! ## C5: the default scene -/

/-- C5.  When the scenes collection is non-empty, the assembler sets the
document's `scene` field to the first scene identifier in sorted order
(equivalently: a scene key that is `≤` every scene key); when there are
no scenes, the `scene` field is left as it was (in particular unset if it
was unset). -/
theorem default_scene_spec (g : Gltf) :
    (g.scenes = [] → (execute_default_scene g).scene = g.scene) ∧
    (g.scenes ≠ [] → ∃ s, (execute_default_scene g).scene = some s ∧
      s ∈ g.scenes.map Prod.fst ∧ ∀ t ∈ g.scenes.map Prod.fst, StrLe s t) := by
  constructor
  · intro h
    simp [execute_default_scene, h]
  · intro h
    have hkeys : g.scenes.map Prod.fst ≠ [] := by
      simpa using h
    have hlen : (py_sorted (g.scenes.map Prod.fst)).length ≠ 0 := by
      rw [(py_sorted_perm (g.scenes.map Prod.fst)).length_eq]
      simpa [List.length_eq_zero] using hkeys
    cases hs : py_sorted (g.scenes.map Prod.fst) with
    | nil => exact absurd (by rw [hs]; rfl) hlen
    | cons s rest =>
      refine ⟨s, ?_, ?_, ?_⟩
      · have hne : g.scenes.isEmpty = false := by
          cases hg : g.scenes with
          | nil => exact absurd hg h
          | cons a l => rfl
        simp [execute_default_scene, hne, hs]
      · have : s ∈ py_sorted (g.scenes.map Prod.fst) := by
          rw [hs]; exact List.mem_cons_self s rest
        exact (py_sorted_perm (g.scenes.map Prod.fst)).subset this
      · intro t ht
        have ht' : t ∈ py_sorted (g.scenes.map Prod.fst) :=
          (py_sorted_perm (g.scenes.map Prod.fst)).symm.subset ht
        rw [hs] at ht'
        rcases List.mem_cons.mp ht' with rfl | htr
        · exact str_le_refl t
        · have hsorted := py_sorted_sorted (g.scenes.map Prod.fst)
          rw [hs] at hsorted
          exact List.rel_of_sorted_cons hsorted t htr

/-- C5, evaluated on `gltf_ex` (scene ids `Scene` and `Alpha`) and on the
empty document. -/
theorem default_scene_check :
    (∃ s, (execute_default_scene gltf_ex).scene = some s ∧
      s ∈ gltf_ex.scenes.map Prod.fst ∧
      ∀ t ∈ gltf_ex.scenes.map Prod.fst, StrLe s t) ∧
    (execute_default_scene gltf_empty).scene = gltf_empty.scene :=
  ⟨(default_scene_spec gltf_ex).2 (by decide),
   (default_scene_spec gltf_empty).1 rfl⟩

/-! ## Helper lemmas: the default-filling loops -/

theorem fill_parameter_value_spec (p p' : TechParameter)
    (h : fill_parameter_value p = some p') :
    p'.type = p.type ∧
    (p.value = some none →
      ∃ d, _DEFAULT_VALUES_BY_PARAM_TYPE p.type = some d ∧
        p'.value = some (some d)) ∧
    (p.value ≠ some none → p' = p) := by
  obtain ⟨ty, val⟩ := p
  cases val with
  | none =>
    simp only [fill_parameter_value] at h
    cases h
    refine ⟨rfl, ?_, fun _ => rfl⟩
    intro hc
    simp at hc
  | some vo =>
    cases vo with
    | none =>
      simp only [fill_parameter_value] at h
      cases ht : _DEFAULT_VALUES_BY_PARAM_TYPE ty with
      | none => rw [ht] at h; cases h
      | some d =>
        rw [ht] at h
        cases h
        refine ⟨rfl, fun _ => ⟨d, rfl, rfl⟩, ?_⟩
        intro hc
        exact absurd rfl hc
    | some w =>
      simp only [fill_parameter_value] at h
      cases h
      refine ⟨rfl, ?_, fun _ => rfl⟩
      intro hc
      simp at hc

theorem fill_parameters_forall2 (ps ps' : List (PyStr × TechParameter))
    (h : fill_parameters ps = some ps') :
    List.Forall₂ (fun a b => a.1 = b.1 ∧ fill_parameter_value a.2 = some b.2)
      ps ps' := by
  induction ps generalizing ps' with
  | nil =>
    cases h
    exact List.Forall₂.nil
  | cons a rest ih =>
    obtain ⟨k, p⟩ := a
    unfold fill_parameters at h
    cases hp : fill_parameter_value p with
    | none => rw [hp] at h; cases h
    | some p' =>
      rw [hp] at h
      cases hr : fill_parameters rest with
      | none => rw [hr] at h; cases h
      | some rest' =>
        rw [hr] at h
        cases h
        exact List.Forall₂.cons ⟨rfl, hp⟩ (ih rest' hr)

theorem fill_techniques_forall2 (ts ts' : List (PyStr × Technique))
    (h : fill_techniques ts = some ts') :
    List.Forall₂ (fun a b => a.1 = b.1 ∧
      fill_parameters a.2.parameters = some b.2.parameters) ts ts' := by
  induction ts generalizing ts' with
  | nil =>
    cases h
    exact List.Forall₂.nil
  | cons a rest ih =>
    obtain ⟨k, t⟩ := a
    unfold fill_techniques at h
    cases hp : fill_parameters t.parameters with
    | none => rw [hp] at h; cases h
    | some ps =>
      rw [hp] at h
      cases hr : fill_techniques rest with
      | none => rw [hr] at h; cases h
      | some rest' =>
        rw [hr] at h
        cases h
        exact List.Forall₂.cons ⟨rfl, hp⟩ (ih rest' hr)

/-! ## C4: per-GL-type default values -/

/-- C4.  After assembly, every technique parameter whose value was left
unset (key present, Python `None`) is filled with the per-GL-type default
from the hard-coded table `_DEFAULT_VALUES_BY_PARAM_TYPE`; in particular
an unset `GL_FLOAT` (5126) parameter receives `1.0` and an unset
`GL_FLOAT_MAT4` (35676) parameter receives the 16-element identity
sequence; parameters with a set value are untouched.  Stated for every
successful run of the default-filling step over the whole document. -/
theorem technique_defaults_spec (g g' : Gltf)
    (h : execute_fill_defaults g = some g') :
    List.Forall₂ (fun tOld tNew => tOld.1 = tNew.1 ∧
      List.Forall₂ (fun pOld pNew =>
        pOld.1 = pNew.1 ∧ pNew.2.type = pOld.2.type ∧
        (pOld.2.value = some none →
          (∃ d, _DEFAULT_VALUES_BY_PARAM_TYPE pOld.2.type = some d ∧
            pNew.2.value = some (some d)) ∧
          (pOld.2.type = 5126 →
            pNew.2.value = some (some (GLValue.float 1))) ∧
          (pOld.2.type = 35676 →
            pNew.2.value = some (some (GLValue.vec
              [1, 0, 0, 0, 0, 1, 0, 0, 0, 0, 1, 0, 0, 0, 0, 1])))) ∧
        (pOld.2.value ≠ some none → pNew.2 = pOld.2))
        tOld.2.parameters tNew.2.parameters)
      g.techniques g'.techniques := by
  have hts : fill_techniques g.techniques = some g'.techniques := by
    unfold execute_fill_defaults at h
    cases hf : fill_techniques g.techniques with
    | none => rw [hf] at h; cases h
    | some ts => rw [hf] at h; cases h; rfl
  refine (fill_techniques_forall2 _ _ hts).imp ?_
  rintro ⟨tk, t⟩ ⟨tk', t'⟩ ⟨hk, hps⟩
  refine ⟨hk, (fill_parameters_forall2 _ _ hps).imp ?_⟩
  rintro ⟨pk, p⟩ ⟨pk', p'⟩ ⟨hpk, hfv⟩
  obtain ⟨hty, hunset, hset⟩ := fill_parameter_value_spec p p' hfv
  refine ⟨hpk, hty, ?_, hset⟩
  intro hv
  obtain ⟨d, hd, hval⟩ := hunset hv
  refine ⟨⟨d, hd, hval⟩, ?_, ?_⟩
  · intro h5126
    rw [h5126] at hd
    have : d = GLValue.float 1 := by
      have := hd
      unfold _DEFAULT_VALUES_BY_PARAM_TYPE at this
      cases this
      rfl
    rw [hval, this]
  · intro h35676
    rw [h35676] at hd
    have : d = GLValue.vec [1, 0, 0, 0, 0, 1, 0, 0, 0, 0, 1, 0, 0, 0, 0, 1] := by
      have := hd
      unfold _DEFAULT_VALUES_BY_PARAM_TYPE at this
      cases this
      rfl
    rw [hval, this]

/-- C4, evaluated on `gltf_tech`: the unset float parameter becomes `1.0`,
the unset 4×4-matrix parameter becomes the 16-element identity, the set
parameter is untouched. -/
theorem technique_defaults_check :
    List.Forall₂ (fun tOld tNew => tOld.1 = tNew.1 ∧
      List.Forall₂ (fun pOld pNew =>
        pOld.1 = pNew.1 ∧ pNew.2.type = pOld.2.type ∧
        (pOld.2.value = some none →
          (∃ d, _DEFAULT_VALUES_BY_PARAM_TYPE pOld.2.type = some d ∧
            pNew.2.value = some (some d)) ∧
          (pOld.2.type = 5126 →
            pNew.2.value = some (some (GLValue.float 1))) ∧
          (pOld.2.type = 35676 →
            pNew.2.value = some (some (GLValue.vec
              [1, 0, 0, 0, 0, 1, 0, 0, 0, 0, 1, 0, 0, 0, 0, 1])))) ∧
        (pOld.2.value ≠ some none → pNew.2 = pOld.2))
        tOld.2.parameters tNew.2.parameters)
      gltf_tech.techniques gltf_tech_filled.techniques :=
  technique_defaults_spec gltf_tech gltf_tech_filled (by decide)

/-! ## C6: the default perspective camera -/

/-- C6.  (The converter is modelled from the spec; see
`export_camera_perspective`.)  Converting a perspective camera with
`angle_x = 0.8576`, `angle_y = 0.5034`, `clip_start = 0.1`,
`clip_end = 100.0` produces a perspective record with `yfov = 0.5034`,
`zfar = 100.0`, `znear = 0.1`, and an aspect ratio equal to the ratio of
the two field-of-view angles, approximately `1.7036` (within `10⁻⁴`). -/
theorem camera_default_conversion_spec :
    (export_camera_perspective (some (0.8576 : ℚ)) 0.5034 0.1 100).yfov = 0.5034 ∧
    (export_camera_perspective (some (0.8576 : ℚ)) 0.5034 0.1 100).zfar = 100 ∧
    (export_camera_perspective (some (0.8576 : ℚ)) 0.5034 0.1 100).znear = 0.1 ∧
    ∃ a, (export_camera_perspective (some (0.8576 : ℚ)) 0.5034 0.1 100).aspect
        = some a ∧
      a = 0.8576 / 0.5034 ∧ |a - 1.7036| < 1 / 10000 := by
  refine ⟨rfl, rfl, rfl, 0.8576 / 0.5034, rfl, rfl, ?_⟩
  rw [abs_lt]
  constructor <;> norm_num

/-! ## C7: two-run determinism of the export -/

/-- C7.  Exporting the same immutable scene twice with identical settings
yields byte-identical output files: the list of file writes (paths, modes
and contents) of a run of `execute` does not depend on the
`time.perf_counter()` readings, the only values that differ between two
otherwise identical runs — so any two runs on equal `bpy` data and equal
settings produce equal writes.  Stated for every conversion engine
`export_fn` and every choice of the (pure) filter functions. -/
theorem export_two_run_deterministic
    (export_fn : BlendData → Settings → Gltf) (s : Settings) (bpy : BlendData)
    (fv fs fu : BlendData → BlendData) (t1 t2 t1' t2' : ℚ) :
    (execute export_fn s bpy fv fs fu t1 t2).map Prod.fst
      = (execute export_fn s bpy fv fs fu t1' t2').map Prod.fst := by
  simp only [execute, Option.map_map]
  rfl

/-- C7, evaluated: two runs with different clock readings on the sample
input produce the same writes. -/
theorem export_two_run_deterministic_check :
    (execute (fun _ _ => gltf_empty) settings_text bpy_empty id id id 0 0).map Prod.fst
      = (execute (fun _ _ => gltf_empty) settings_text bpy_empty id id id 5 7).map
          Prod.fst :=
  export_two_run_deterministic (fun _ _ => gltf_empty) settings_text bpy_empty
    id id id 0 0 5 7

/-! ## C8: the write phase -/

/-- C8 (amended).  File writing happens only at the very end of a run of
`execute`, after the in-memory document is fully assembled, and every
file written is a pure function of the fully assembled document `g3` — no
partially assembled document is persisted.  In binary mode exactly one
file, the chosen path, is opened, written and closed; in text mode
exactly two files are: an auxiliary dump at the chosen path + `.raw`,
then the chosen path. -/
theorem write_phase_spec (export_fn : BlendData → Settings → Gltf)
    (s : Settings) (bpy : BlendData) (fv fs fu : BlendData → BlendData)
    (t_start t_end : ℚ) (w : List FileWrite) (log : List LogEntry)
    (h : execute export_fn s bpy fv fs fu t_start t_end = some (w, log)) :
    ∃ g3, execute_fill_defaults (execute_default_scene (execute_root_transform
        s.nodes_global_matrix
        (export_fn (execute_engine_input s bpy fv fs fu) s))) = some g3 ∧
      (s.gltf_export_binary = true →
        w = [⟨s.filepath, true, FileContent.glbBytes g3⟩]) ∧
      (s.gltf_export_binary = false →
        w = [⟨s.filepath ++ ".raw".data, false, FileContent.rawText g3⟩,
             ⟨s.filepath, false, FileContent.jsonText g3
               (if s.pretty_print then some 4 else none) s.pretty_print⟩]) := by
  simp only [execute] at h
  rw [Option.map_eq_some'] at h
  obtain ⟨g3, hg3, hpair⟩ := h
  have hw : (if s.gltf_export_binary then
      [(⟨s.filepath, true, FileContent.glbBytes g3⟩ : FileWrite)]
    else
      [⟨s.filepath ++ ".raw".data, false, FileContent.rawText g3⟩,
       ⟨s.filepath, false, FileContent.jsonText g3
         (if s.pretty_print then some 4 else none) s.pretty_print⟩]) = w :=
    congrArg Prod.fst hpair
  refine ⟨g3, hg3, ?_, ?_⟩
  · intro hb
    rw [← hw, hb]
    simp
  · intro hb
    rw [← hw, hb]
    simp

/-- C8 (amended), evaluated on the sample text-mode input. -/
theorem write_phase_check :
    ∃ g3, execute_fill_defaults (execute_default_scene (execute_root_transform
        settings_text.nodes_global_matrix
        ((fun _ _ => gltf_empty)
          (execute_engine_input settings_text bpy_empty id id id)
          settings_text))) = some g3 ∧
      (settings_text.gltf_export_binary = true →
        [(⟨"scene.gltf.raw".data, false, FileContent.rawText gltf_empty⟩ : FileWrite),
         ⟨"scene.gltf".data, false, FileContent.jsonText gltf_empty (some 4) true⟩]
          = [⟨settings_text.filepath, true, FileContent.glbBytes g3⟩]) ∧
      (settings_text.gltf_export_binary = false →
        [(⟨"scene.gltf.raw".data, false, FileContent.rawText gltf_empty⟩ : FileWrite),
         ⟨"scene.gltf".data, false, FileContent.jsonText gltf_empty (some 4) true⟩]
          = [⟨settings_text.filepath ++ ".raw".data, false,
              FileContent.rawText g3⟩,
             ⟨settings_text.filepath, false, FileContent.jsonText g3
               (if settings_text.pretty_print then some 4 else none)
               settings_text.pretty_print⟩]) :=
  write_phase_spec (fun _ _ => gltf_empty) settings_text bpy_empty id id id 0 0
    [⟨"scene.gltf.raw".data, false, FileContent.rawText gltf_empty⟩,
     ⟨"scene.gltf".data, false, FileContent.jsonText gltf_empty (some 4) true⟩]
    [LogEntry.timing (0 - 0)]
    (by rfl)

/-- C8, counterexample to the claim as stated: a text-mode export call
opens and writes two files (the auxiliary `.raw` dump and the chosen
path), not exactly one. -/
theorem write_phase_two_files_counterexample :
    write_count (execute (fun _ _ => gltf_empty) settings_text bpy_empty
        id id id 0 0) = some 2 ∧
    write_paths (execute (fun _ _ => gltf_empty) settings_text bpy_empty
        id id id 0 0) = some ["scene.gltf.raw".data, "scene.gltf".data] ∧
    write_count (execute (fun _ _ => gltf_empty) settings_text bpy_empty
        id id id 0 0) ≠ some 1 :=
  ⟨by decide, by decide, by decide⟩

/-! ## Helper lemmas: category filtering -/

theorem mem_cond_filter {α : Type} (c : Bool) (p : α → Bool) (l : List α)
    (x : α) (h : x ∈ (if c = true then l.filter p else l)) :
    x ∈ l ∧ (c = true → p x = true) := by
  cases c with
  | false =>
    rw [if_neg (by simp)] at h
    exact ⟨h, by simp⟩
  | true =>
    rw [if_pos rfl] at h
    exact ⟨(List.mem_filter.mp h).1, fun _ => (List.mem_filter.mp h).2⟩

theorem filter_objects_spec (s : Settings) (objs : List BpyObject)
    (o : BpyObject) (h : o ∈ execute_filter_objects s objs) :
    o ∈ objs ∧
    (s.enable_cameras = false → o.data ≠ BpyDataKind.camera) ∧
    (s.enable_lamps = false → o.data ≠ BpyDataKind.lamp) ∧
    (s.enable_meshes = false → o.data ≠ BpyDataKind.mesh) := by
  simp only [execute_filter_objects] at h
  obtain ⟨h2, hmesh⟩ := mem_cond_filter _ _ _ _ h
  obtain ⟨h1, hlamp⟩ := mem_cond_filter _ _ _ _ h2
  obtain ⟨h0, hcam⟩ := mem_cond_filter _ _ _ _ h1
  refine ⟨h0, ?_, ?_, ?_⟩
  · intro hc
    exact of_decide_eq_true (hcam (by rw [hc]; rfl))
  · intro hc
    exact of_decide_eq_true (hlamp (by rw [hc]; rfl))
  · intro hc
    exact of_decide_eq_true (hmesh (by rw [hc]; rfl))

theorem if_filter_le (f : BlendData → BlendData) (hf : IsEntityFilter f)
    (c : Prop) [Decidable c] (d : BlendData) :
    (if c then f d else d).objects ⊆ d.objects ∧
    (if c then f d else d).cameras ⊆ d.cameras ∧
    (if c then f d else d).lamps ⊆ d.lamps ∧
    (if c then f d else d).meshes ⊆ d.meshes := by
  by_cases h : c
  · rw [if_pos h]
    exact hf d
  · rw [if_neg h]
    exact ⟨List.Subset.refl _, List.Subset.refl _,
      List.Subset.refl _, List.Subset.refl _⟩

theorem engine_input_subset (s : Settings) (bpy : BlendData)
    (fv fs fu : BlendData → BlendData)
    (hv : IsEntityFilter fv) (hs : IsEntityFilter fs) (hu : IsEntityFilter fu) :
    (execute_engine_input s bpy fv fs fu).objects
      ⊆ execute_filter_objects s bpy.objects ∧
    (execute_engine_input s bpy fv fs fu).cameras
      ⊆ (execute_filter_data s bpy).cameras ∧
    (execute_engine_input s bpy fv fs fu).lamps
      ⊆ (execute_filter_data s bpy).lamps ∧
    (execute_engine_input s bpy fv fs fu).meshes
      ⊆ (execute_filter_data s bpy).meshes := by
  simp only [execute_engine_input]
  refine ⟨?_, ?_, ?_, ?_⟩
  · exact (if_filter_le fu hu _ _).1.trans
      ((if_filter_le fs hs _ _).1.trans (if_filter_le fv hv _ _).1)
  · exact (if_filter_le fu hu _ _).2.1.trans
      ((if_filter_le fs hs _ _).2.1.trans (if_filter_le fv hv _ _).2.1)
  · exact (if_filter_le fu hu _ _).2.2.1.trans
      ((if_filter_le fs hs _ _).2.2.1.trans (if_filter_le fv hv _ _).2.2.1)
  · exact (if_filter_le fu hu _ _).2.2.2.trans
      ((if_filter_le fs hs _ _).2.2.2.trans (if_filter_le fv hv _ _).2.2.2)

theorem isEntityFilter_id : IsEntityFilter id := fun _ =>
  ⟨List.Subset.refl _, List.Subset.refl _, List.Subset.refl _,
    List.Subset.refl _⟩

/-! ## C9: disabled categories never reach the engine -/

/-- C9.  If a category flag is disabled then no object of that category
reaches the conversion engine's input, and the corresponding entity list
is empty — for every engine input built by `execute` from any `bpy` data,
with the three data-reducing filter passes (`visible_only`,
`selected_only`, `used_only`, quantified as arbitrary entity filters since
the `filters` module is not under `src/`) applied or not according to the
settings. -/
theorem category_filtering_spec (s : Settings) (bpy : BlendData)
    (fv fs fu : BlendData → BlendData)
    (hv : IsEntityFilter fv) (hs : IsEntityFilter fs) (hu : IsEntityFilter fu) :
    (s.enable_cameras = false →
      (∀ o ∈ (execute_engine_input s bpy fv fs fu).objects,
        o.data ≠ BpyDataKind.camera) ∧
      (execute_engine_input s bpy fv fs fu).cameras = []) ∧
    (s.enable_lamps = false →
      (∀ o ∈ (execute_engine_input s bpy fv fs fu).objects,
        o.data ≠ BpyDataKind.lamp) ∧
      (execute_engine_input s bpy fv fs fu).lamps = []) ∧
    (s.enable_meshes = false →
      (∀ o ∈ (execute_engine_input s bpy fv fs fu).objects,
        o.data ≠ BpyDataKind.mesh) ∧
      (execute_engine_input s bpy fv fs fu).meshes = []) := by
  obtain ⟨hobj, hcam, hlamp, hmesh⟩ := engine_input_subset s bpy fv fs fu hv hs hu
  refine ⟨?_, ?_, ?_⟩
  · intro hc
    refine ⟨fun o ho => (filter_objects_spec s bpy.objects o (hobj ho)).2.1 hc, ?_⟩
    have hempty : (execute_filter_data s bpy).cameras = [] := by
      simp [execute_filter_data, hc]
    rw [hempty] at hcam
    exact List.subset_nil.mp hcam
  · intro hc
    refine ⟨fun o ho => (filter_objects_spec s bpy.objects o (hobj ho)).2.2.1 hc, ?_⟩
    have hempty : (execute_filter_data s bpy).lamps = [] := by
      simp [execute_filter_data, hc]
    rw [hempty] at hlamp
    exact List.subset_nil.mp hlamp
  · intro hc
    refine ⟨fun o ho => (filter_objects_spec s bpy.objects o (hobj ho)).2.2.2 hc, ?_⟩
    have hempty : (execute_filter_data s bpy).meshes = [] := by
      simp [execute_filter_data, hc]
    rw [hempty] at hmesh
    exact List.subset_nil.mp hmesh

/-- C9, evaluated on the sample data with cameras, lamps and meshes
disabled: the camera list reaching the engine is empty (by the theorem),
and indeed only the empty object survives the object pass. -/
theorem category_filtering_check :
    (execute_engine_input settings_nocam bpy_sample id id id).cameras = [] ∧
    (execute_engine_input settings_nocam bpy_sample id id id).objects
      = [⟨"Empty".data, BpyDataKind.nodata⟩] :=
  ⟨((category_filtering_spec settings_nocam bpy_sample id id id
      isEntityFilter_id isEntityFilter_id isEntityFilter_id).1 rfl).2,
   by decide⟩

end Blendergltf
